import Mathlib

/-!
Shallow embedding of the discount-normalization and query-aggregation core of
the `google_shopping_agent` package (models.py, serp_api_client.py, agent.py).

Python floats are modelled as rationals (`ℚ`), Python `int` as `ℤ`/`ℕ`,
optional fields as `Option`, and `round(x, 2)` as `round2` below.  Functions
that can raise in Python are modelled with `Option`/`Except` results.
-/

namespace HfScraper

/-- Model of Python `round(x, 2)`: round `x` to two decimal places. -/
def round2 (q : ℚ) : ℚ := (round (q * 100) : ℚ) / 100

/-- The ASCII apostrophe character, used by the run loop's error format. -/
def squote : String := String.singleton (Char.ofNat 39)

/-- Canonical rendering of a rational, standing in for Python float
formatting inside f-strings. -/
def showRat (q : ℚ) : String :=
  if q.den = 1 then toString q.num else toString q.num ++ "." ++ toString q.den

/-- Numeric value of an ASCII digit character. -/
def digitVal (c : Char) : ℕ := c.toNat - 48

/-- Scanner for `re.search(r'(\d+)%', tag)` in
`ShoppingProduct.calculate_discount_percentage` (models.py:64): walk the
characters keeping the value of the current maximal digit run; at the first
percent sign directly preceded by at least one digit, return that run. -/
def tagScan : List Char → Option ℕ → Option ℕ
  | [], _ => none
  | c :: cs, run =>
    if c = '%' then
      match run with
      | some n => some n
      | none => tagScan cs none
    else if c.isDigit then tagScan cs (some ((run.getD 0) * 10 + digitVal c))
    else tagScan cs none

/-- Model of `re.search(r'(\d+)%', tag)` followed by `float(match.group(1))`. -/
def extractTagPercent (s : String) : Option ℕ := tagScan s.toList none

/-- Consume a leading run of ASCII digits, returning its value, its length
and the rest of the characters. -/
def digitsRun : List Char → ℕ → ℕ → ℕ × ℕ × List Char
  | [], v, k => (v, k, [])
  | c :: cs, v, k =>
    if c.isDigit then digitsRun cs (v * 10 + digitVal c) (k + 1) else (v, k, c :: cs)

/-- Model of `re.search(r'[\d,]+\.?\d*', price_str.replace(',',''))` followed
by `float(match.group())` in `SerpApiClient._parse_product`
(serp_api_client.py:84-86).  The input is the comma-stripped character list;
the leftmost match is a maximal digit run, optionally followed by a decimal
point and a further digit run. -/
def extractPriceNum : List Char → Option ℚ
  | [] => none
  | c :: cs =>
    if c.isDigit then
      let r := digitsRun (c :: cs) 0 0
      match r.2.2 with
      | '.' :: rest =>
        let f := digitsRun rest 0 0
        some ((r.1 : ℚ) + (f.1 : ℚ) / (10 : ℚ) ^ f.2.1)
      | _ => some (r.1 : ℚ)
    else extractPriceNum cs

/-- Embedding of the `ShoppingProduct` dataclass (models.py:18-40). -/
structure ShoppingProduct where
  title : String
  product_id : String
  source : String
  price : ℚ
  currency : String := "USD"
  original_price : Option ℚ := none
  discount_percentage : Option ℚ := none
  thumbnail : Option String := none
  product_link : Option String := none
  rating : Option ℚ := none
  reviews : Option ℤ := none
  delivery_info : Option String := none
  discount_tag : Option String := none
  condition : Option String := none
deriving DecidableEq

/-- Embedding of the `ShoppingProduct.has_discount` property
(models.py:42-51).  Note the tag clause tests `is not None`, not truthiness. -/
def has_discount (p : ShoppingProduct) : Bool :=
  (match p.discount_percentage with
   | some d => decide (0 < d)
   | none => false)
  || (match p.original_price with
      | some o => decide (p.price < o)
      | none => false)
  || p.discount_tag.isSome

/-- The `discount_tag` fallback branch of `calculate_discount_percentage`
(models.py:62-68).  Python truthiness: `if self.discount_tag:` requires a
nonempty string. -/
def calcFromTag (p : ShoppingProduct) : Option ℚ :=
  match p.discount_tag with
  | some t =>
    if t ≠ "" then
      match extractTagPercent t with
      | some n => some (n : ℚ)
      | none => none
    else none
  | none => none

/-- The `original_price` fallback branch of `calculate_discount_percentage`
(models.py:58-59).  Python truthiness: `if self.original_price and ...:`
requires a non-`None`, nonzero value. -/
def calcFromPrices (p : ShoppingProduct) : Option ℚ :=
  match p.original_price with
  | some o =>
    if o ≠ 0 ∧ p.price < o then
      some (round2 ((o - p.price) / o * 100))
    else calcFromTag p
  | none => calcFromTag p

/-- Embedding of `ShoppingProduct.calculate_discount_percentage`
(models.py:53-68).  Python truthiness: `if self.discount_percentage:` is
false for `None` and for `0.0`. -/
def calculate_discount_percentage (p : ShoppingProduct) : Option ℚ :=
  match p.discount_percentage with
  | some d =>
    if d ≠ 0 then some d else calcFromPrices p
  | none => calcFromPrices p

/-- Embedding of the `SearchQuery` dataclass (models.py:71-88).  The unused
`last_searched` timestamp bookkeeping field is omitted. -/
structure SearchQuery where
  keyword : String
  category_id : Option String := none
  category_name : Option String := none
  priority : ℤ := 0
  min_price : Option ℚ := none
  max_price : Option ℚ := none
  on_sale : Bool := true
  sort_by : Option String := none
  min_rating : Option ℚ := none
  search_count : ℕ := 0
deriving DecidableEq

/-- The comparison used by `sorted(queries, key=lambda x: x.priority,
reverse=True)` (agent.py:123): `a` may stay before `b` when `b`'s priority
does not exceed `a`'s. -/
def priorityGE (a b : SearchQuery) : Prop := b.priority ≤ a.priority

instance : DecidableRel priorityGE := fun a b =>
  inferInstanceAs (Decidable (b.priority ≤ a.priority))

instance : IsTotal SearchQuery priorityGE :=
  ⟨fun a b => le_total b.priority a.priority⟩

instance : IsTrans SearchQuery priorityGE :=
  ⟨fun _ _ _ hab hbc => le_trans hbc hab⟩

/-- Model of Python's stable `sorted(queries, key=lambda x: x.priority,
reverse=True)` (agent.py:123): a stable insertion sort that keeps earlier
elements first on equal priorities and orders priorities descending. -/
def sortByPriorityDesc (qs : List SearchQuery) : List SearchQuery :=
  qs.insertionSort priorityGE

/-- Model of Python `keyword.lower()` (agent.py:124) on the ASCII range, as a
character list so the kernel can evaluate it. -/
def lowerKw (s : String) : List Char := s.toList.map Char.toLower

/-- The single-pass deduplication loop of `gather_search_queries`
(agent.py:121-127): `seen` is the set of lowercased keywords already kept. -/
def dedupGo (seen : List (List Char)) : List SearchQuery → List SearchQuery
  | [] => []
  | q :: rest =>
    if lowerKw q.keyword ∈ seen then dedupGo seen rest
    else q :: dedupGo (lowerKw q.keyword :: seen) rest

/-- The sort-then-deduplicate merge core of `gather_search_queries`
(agent.py:120-130). -/
def mergeQueries (qs : List SearchQuery) : List SearchQuery :=
  dedupGo [] (sortByPriorityDesc qs)

/-- A trending keyword wrapped into a query (agent.py:113-117). -/
def mkTrendingQuery (k : String) : SearchQuery :=
  { keyword := k, on_sale := true, priority := 5 }

/-- A deal-alert query force-assigned the highest priority (agent.py:104-105). -/
def alertPrioritized (q : SearchQuery) : SearchQuery := { q with priority := 10 }

/-- Embedding of `GoogleShoppingAgent.gather_search_queries` (agent.py:92-130)
with the two external sources (deal-alert queries and trending keyword
strings) passed in as inputs. -/
def gather_search_queries (alerts : List SearchQuery) (trending : List String) :
    List SearchQuery :=
  mergeQueries (alerts.map alertPrioritized ++ trending.map mkTrendingQuery)

/-- Embedding of the raw SERP result item consumed by
`SerpApiClient._parse_product` (serp_api_client.py:74-126), with the fields
the parser reads, typed; an absent key is `none` (or the `dict.get` default). -/
structure RawItem where
  extracted_price : Option ℚ := none
  price_str : String := ""
  extracted_old_price : Option ℚ := none
  title : String := ""
  product_id : String := ""
  source : Option String := none
  thumbnail : Option String := none
  serpapi_thumbnail : Option String := none
  product_link : Option String := none
  link : Option String := none
  rating : Option ℚ := none
  reviews : Option ℤ := none
  delivery : Option String := none
  second_hand_cond : Option String := none
  tag : Option String := none
  extensions : List String := []
deriving DecidableEq

/-- Model of Python's `x or y` on optional strings (`item.get("thumbnail") or
item.get("serpapi_thumbnail")`, serp_api_client.py:101-102): the left value
wins only when truthy (non-`None` and nonempty). -/
def pyOr (a b : Option String) : Option String :=
  match a with
  | some s => if s ≠ "" then some s else b
  | none => b

/-- The badge predicate of the extensions scan (serp_api_client.py:115):
`"OFF" in str(ext).upper() or "%" in str(ext)`. -/
def extBadge (e : String) : Bool :=
  decide ("OFF".toList <:+: e.toList.map Char.toUpper) || ('%' ∈ e.toList)

/-- The price-resolution steps of `_parse_product`
(serp_api_client.py:78-86): the pre-extracted numeric price if present, else
the first numeric run of the comma-stripped formatted price string. -/
def resolvePrice (item : RawItem) : Option ℚ :=
  match item.extracted_price with
  | some p => some p
  | none =>
    if item.price_str ≠ "" then
      extractPriceNum (item.price_str.toList.filter (fun c => c ≠ ','))
    else none

/-- The product construction of `_parse_product` before discount-tag
back-fill (serp_api_client.py:95-107), given the resolved positive price. -/
def rawToProduct (item : RawItem) (price : ℚ) : ShoppingProduct :=
  { title := item.title
    product_id := item.product_id
    source := item.source.getD "Unknown"
    price := price
    original_price := item.extracted_old_price
    thumbnail := pyOr item.thumbnail item.serpapi_thumbnail
    product_link := pyOr item.product_link item.link
    rating := item.rating
    reviews := item.reviews
    delivery_info := item.delivery
    condition := item.second_hand_cond }

/-- The discount tag chosen by `_parse_product` (serp_api_client.py:110-117):
a present `tag` key wins, else the first extension badge containing "OFF"
(case-insensitive) or a percent sign, else the field is left as it was. -/
def chosenTag (item : RawItem) (old : Option String) : Option String :=
  match item.tag with
  | some t => some t
  | none =>
    match item.extensions.find? extBadge with
    | some e => some e
    | none => old

/-- The discount-tag adoption step of `_parse_product`
(serp_api_client.py:110-117). -/
def adoptTag (item : RawItem) (p : ShoppingProduct) : ShoppingProduct :=
  { p with discount_tag := chosenTag item p.discount_tag }

/-- Embedding of `SerpApiClient._parse_product` (serp_api_client.py:74-126):
`none` when no positive numeric price is obtainable, else the fully-built
product with its discount percentage back-filled. -/
def parse_product (item : RawItem) : Option ShoppingProduct :=
  match resolvePrice item with
  | none => none
  | some price =>
    if price ≤ 0 then none
    else
      let tagged := adoptTag item (rawToProduct item price)
      some { tagged with discount_percentage := calculate_discount_percentage tagged }

/-- Embedding of the search payload (serp_api_client.py:156-167): the two
raw-item arrays the response is read from. -/
structure SearchPayload where
  shopping_results : List RawItem := []
  inline_shopping_results : List RawItem := []

/-- The parse-and-append loop of `SerpApiClient.search`
(serp_api_client.py:157-160 and 164-167) over one raw-item array. -/
def collectParsed (items : List RawItem) (acc : List ShoppingProduct) :
    List ShoppingProduct :=
  items.foldl
    (fun acc item =>
      match parse_product item with
      | some p => acc ++ [p]
      | none => acc)
    acc

/-- Embedding of the result assembly of `SerpApiClient.search`
(serp_api_client.py:142-178): main shopping results first, then inline
results. -/
def search_results (data : SearchPayload) : List ShoppingProduct :=
  collectParsed data.inline_shopping_results (collectParsed data.shopping_results [])

/-- The filtering loop of `SerpApiClient.search_with_discount_filter`
(serp_api_client.py:201-206).  Python truthiness: `if discount and discount
>= min_discount` keeps a product only when its derived discount is not
`None`, nonzero, and at least the threshold. -/
def discountFilterLoop : List ShoppingProduct → ℚ → List ShoppingProduct
  | [], _ => []
  | p :: ps, m =>
    if has_discount p then
      match calculate_discount_percentage p with
      | some d =>
        if d ≠ 0 ∧ m ≤ d then p :: discountFilterLoop ps m else discountFilterLoop ps m
      | none => discountFilterLoop ps m
    else discountFilterLoop ps m

/-- Embedding of `SerpApiClient.search_with_discount_filter`
(serp_api_client.py:180-213) applied to an already-received payload. -/
def search_with_discount_filter (data : SearchPayload) (min_discount : ℚ) :
    List ShoppingProduct :=
  discountFilterLoop (search_results data) min_discount

/-- Embedding of the `DealStatus` enum (models.py:10-15). -/
inductive DealStatus where
  | pending
  | approved
  | expired
  | rejected
  | flagged
deriving DecidableEq

/-- Embedding of the `DealToCreate` dataclass (models.py:91-109). -/
structure DealToCreate where
  title : String
  description : String
  original_price : ℚ
  discounted_price : ℚ
  discount_percentage : ℚ
  currency : String
  affiliate_url : String
  image_url : Option String := none
  store_id : Option String := none
  category_id : Option String := none
  posted_by : Option String := none
  status : DealStatus := DealStatus.pending
deriving DecidableEq

/-- The description fragments built by `GoogleShoppingAgent._product_to_deal`
(agent.py:65-73).  Python truthiness on each `if`: a zero rating or review
count and an empty delivery/condition string are skipped. -/
def descParts (p : ShoppingProduct) : List String :=
  ["Found on " ++ p.source]
  ++ (match p.rating with
      | some r => if r ≠ 0 then ["Rating: " ++ showRat r ++ "/5"] else []
      | none => [])
  ++ (match p.reviews with
      | some n => if n ≠ 0 then ["(" ++ toString n ++ " reviews)"] else []
      | none => [])
  ++ (match p.delivery_info with
      | some s => if s ≠ "" then ["Delivery: " ++ s] else []
      | none => [])
  ++ (match p.condition with
      | some s => if s ≠ "" then ["Condition: " ++ s] else []
      | none => [])

/-- The estimate branch of the original-price resolution (agent.py:56-60),
reached when `original_price` is `None` or zero.  `none` models the
`ZeroDivisionError` raised when the known discount percentage is exactly
100. -/
def resolveOriginalEstimate (p : ShoppingProduct) : Option ℚ :=
  match p.discount_percentage with
  | some d =>
    if d ≠ 0 then
      if 1 - d / 100 = 0 then none else some (p.price / (1 - d / 100))
    else some p.price
  | none => some p.price

/-- The original-price resolution of `_product_to_deal` (agent.py:54-60).
Python truthiness: a present-but-zero `original_price` counts as missing and
a present-but-zero `discount_percentage` does not trigger the estimate. -/
def resolveOriginal (p : ShoppingProduct) : Option ℚ :=
  match p.original_price with
  | some o =>
    if o ≠ 0 then some o else resolveOriginalEstimate p
  | none => resolveOriginalEstimate p

/-- Embedding of `GoogleShoppingAgent._product_to_deal` (agent.py:35-90):
`none` models the `ZeroDivisionError` case; otherwise the staged deal. -/
def product_to_deal (p : ShoppingProduct) (category_id store_id posted_by :
    Option String) : Option DealToCreate :=
  match resolveOriginal p with
  | none => none
  | some original_price =>
    some
      { title := ⟨p.title.toList.take 200⟩
        description := String.intercalate " | " (descParts p)
        original_price := round2 original_price
        discounted_price := round2 p.price
        discount_percentage := round2 ((calculate_discount_percentage p).getD 0)
        currency := p.currency
        affiliate_url := (p.product_link.getD "")
        image_url := p.thumbnail
        category_id := category_id
        store_id := store_id
        posted_by := posted_by
        status := DealStatus.pending }

/-- Embedding of the `AgentResult` dataclass (models.py:129-150). -/
structure AgentResult where
  success : Bool
  products_found : ℕ := 0
  products_with_discount : ℕ := 0
  deals_created : ℕ := 0
  errors : List String := []
  search_queries_processed : ℕ := 0
deriving DecidableEq

/-- The fresh result the agent starts from (`AgentResult(success=True)`,
agent.py:33). -/
def initResult : AgentResult := { success := true }

/-- The per-query error format of the run loop (agent.py:232):
`f"Query '{query.keyword}': {str(e)}"`. -/
def queryErr (kw msg : String) : String :=
  "Query " ++ squote ++ kw ++ squote ++ ": " ++ msg

/-- One iteration of the run loop of `GoogleShoppingAgent.run`
(agent.py:211-232): `sf` is the discount-filtered search, whose failure is
an exception message. -/
def run_step (sf : SearchQuery → Except String (List ShoppingProduct))
    (r : AgentResult) (q : SearchQuery) : AgentResult :=
  match sf q with
  | Except.ok ps =>
    { r with
      products_found := r.products_found + ps.length
      products_with_discount :=
        r.products_with_discount + (ps.filter has_discount).length
      search_queries_processed := r.search_queries_processed + 1 }
  | Except.error e => { r with errors := r.errors ++ [queryErr q.keyword e] }

/-- Embedding of `GoogleShoppingAgent.run` (agent.py:182-243) given the
gathered queries and the searching collaborator: truncate to `max_queries`,
fold the per-query step over the prefix, return the accumulated result. -/
def run_agent (sf : SearchQuery → Except String (List ShoppingProduct))
    (queries : List SearchQuery) (max_queries : ℕ) : AgentResult :=
  (queries.take max_queries).foldl (run_step sf) initResult

/-- State accumulated by `process_products` (agent.py:132-180), with the
deals handed to `create_deal` recorded so creation attempts can be counted. -/
structure ProcState where
  deals_created : ℕ := 0
  errors : List String := []
  deal_calls : List DealToCreate := []
deriving DecidableEq

/-- The external store collaborator used by `process_products`
(supabase_client.py): each call may raise, modelled by `Except`. -/
structure StoreEnv where
  deal_exists : String → Except String Bool
  store_for : String → Except String (Option String)
  create_res : DealToCreate → Except String (Option String)

/-- Truthiness of `product.product_link` (`if not product.product_link:
continue`, agent.py:152-153). -/
def linkTruthy (p : ShoppingProduct) : Bool :=
  match p.product_link with
  | some s => s ≠ ""
  | none => false

/-- The message of the `ZeroDivisionError` raised by `_product_to_deal` when
the known discount percentage is exactly 100. -/
def divZeroMsg : String := "float division by zero"

/-- One iteration of the loop of `GoogleShoppingAgent.process_products`
(agent.py:149-178): skip silently without a usable link, skip without error
when the deal already exists, otherwise resolve the store, build the deal
and persist it; any raised error is appended to the error list and the loop
continues. -/
def process_one (env : StoreEnv) (category_id : Option String) (s : ProcState)
    (p : ShoppingProduct) : ProcState :=
  if linkTruthy p then
    match env.deal_exists p.product_id with
    | Except.error e => { s with errors := s.errors ++ [e] }
    | Except.ok true => s
    | Except.ok false =>
      match env.store_for p.source with
      | Except.error e => { s with errors := s.errors ++ [e] }
      | Except.ok store_id =>
        match product_to_deal p category_id store_id none with
        | none => { s with errors := s.errors ++ [divZeroMsg] }
        | some deal =>
          match env.create_res deal with
          | Except.error e =>
            { s with errors := s.errors ++ [e], deal_calls := s.deal_calls ++ [deal] }
          | Except.ok (some _) =>
            { s with
              deals_created := s.deals_created + 1
              deal_calls := s.deal_calls ++ [deal] }
          | Except.ok none => { s with deal_calls := s.deal_calls ++ [deal] }
  else s

/-- Embedding of `GoogleShoppingAgent.process_products` (agent.py:132-180). -/
def process_products (env : StoreEnv) (category_id : Option String)
    (products : List ShoppingProduct) : ProcState :=
  products.foldl (process_one env category_id) {}

/-- A product whose explicit discount percentage has three decimal places. -/
def cexC1a : ShoppingProduct :=
  { title := "t", product_id := "i", source := "s", price := 10,
    discount_percentage := some 12.345 }

/-- A product whose explicit discount percentage is set to zero while an
original price above the current price is also present. -/
def cexC1b : ShoppingProduct :=
  { title := "t", product_id := "i", source := "s", price := 50,
    original_price := some 100, discount_percentage := some 0 }

/-- A product carrying only the discount tag "51% OFF". -/
def tag51Product : ShoppingProduct :=
  { title := "t", product_id := "i", source := "s", price := 10,
    discount_tag := some "51% OFF" }

/-- C1: the claim as stated is false.  With `discountPercentage` set to
12.345 the resolved value is returned as-is and is not rounded to 2
decimals; and with `discountPercentage` set (to 0) the explicit field is
not used — the value computed from the prices (50) is returned instead. -/
theorem claim_C1_counterexample :
    calculate_discount_percentage cexC1a = some (12.345 : ℚ) ∧
    round2 (12.345 : ℚ) ≠ (12.345 : ℚ) ∧
    calculate_discount_percentage cexC1b = some 50 ∧
    (50 : ℚ) ≠ (0 : ℚ) := by
  refine ⟨?_, ?_, ?_, by norm_num⟩
  · simp [cexC1a, calculate_discount_percentage]; norm_num
  · simp [round2, round_eq]; norm_num
  · simp [cexC1b, calculate_discount_percentage, calcFromPrices]
    norm_num [round2, round_eq]

/-- C1 (amended): `calculate_discount_percentage` resolves with strict
precedence — the explicit `discountPercentage` field if set and nonzero
(returned as-is, not re-rounded), else the value computed from
`originalPrice`/`price` rounded to 2 decimals (when `originalPrice` is set,
nonzero and above `price`), else the digits immediately preceding a percent
sign in `discountTag` as a whole number, else `none`; `discountTag`
"51% OFF" with no other discount fields yields exactly 51. -/
theorem claim_C1_amended (p : ShoppingProduct) :
    (∀ d, p.discount_percentage = some d → d ≠ 0 →
      calculate_discount_percentage p = some d) ∧
    ((p.discount_percentage = none ∨ p.discount_percentage = some 0) →
      ∀ o, p.original_price = some o → o ≠ 0 → p.price < o →
      calculate_discount_percentage p = some (round2 ((o - p.price) / o * 100))) ∧
    ((p.discount_percentage = none ∨ p.discount_percentage = some 0) →
      (∀ o, p.original_price = some o → o = 0 ∨ o ≤ p.price) →
      ∀ t, p.discount_tag = some t →
      calculate_discount_percentage p = (extractTagPercent t).map (fun n => (n : ℚ))) ∧
    ((p.discount_percentage = none ∨ p.discount_percentage = some 0) →
      (∀ o, p.original_price = some o → o = 0 ∨ o ≤ p.price) →
      p.discount_tag = none →
      calculate_discount_percentage p = none) ∧
    calculate_discount_percentage tag51Product = some 51 := by
  have hex : calculate_discount_percentage tag51Product = some 51 := by
    simp [tag51Product, calculate_discount_percentage, calcFromPrices, calcFromTag,
      extractTagPercent]
    decide
  refine ⟨?_, ?_, ?_, ?_, hex⟩
  · intro d hd hdz
    simp [calculate_discount_percentage, hd, hdz]
  · intro h0 o ho hoz hlt
    have hpr : calcFromPrices p = some (round2 ((o - p.price) / o * 100)) := by
      simp [calcFromPrices, ho, hoz, hlt]
    rcases h0 with h | h <;> simp [calculate_discount_percentage, h, hpr]
  · intro h0 hno t ht
    have htag : calcFromTag p = (extractTagPercent t).map (fun n => (n : ℚ)) := by
      by_cases he : t = ""
      · subst he
        have : extractTagPercent "" = none := rfl
        simp [calcFromTag, ht, this]
      · simp only [calcFromTag, ht, he, ne_eq, not_false_eq_true, if_true]
        cases extractTagPercent t <;> simp
    have hpr : calcFromPrices p = calcFromTag p := by
      cases hop : p.original_price with
      | none => simp [calcFromPrices, hop]
      | some o =>
        rcases hno o hop with h | h
        · simp [calcFromPrices, hop, h]
        · have : ¬ p.price < o := not_lt.mpr h
          simp [calcFromPrices, hop, this]
    rcases h0 with h | h <;> simp [calculate_discount_percentage, h, hpr, htag]
  · intro h0 hno ht
    have htag : calcFromTag p = none := by simp [calcFromTag, ht]
    have hpr : calcFromPrices p = none := by
      cases hop : p.original_price with
      | none => simp [calcFromPrices, hop, htag]
      | some o =>
        rcases hno o hop with h | h
        · simp [calcFromPrices, hop, h, htag]
        · have : ¬ p.price < o := not_lt.mpr h
          simp [calcFromPrices, hop, this, htag]
    rcases h0 with h | h <;> simp [calculate_discount_percentage, h, hpr]

/-- C1 (witness): the amended theorem applied to the product with explicit
discount percentage 12.345. -/
theorem claim_C1_witness : calculate_discount_percentage cexC1a = some (12.345 : ℚ) :=
  (claim_C1_amended cexC1a).1 12.345 rfl (by norm_num)

/-- The membership predicate actually applied by the discount filter
(serp_api_client.py:202-206). -/
def keepPred (m : ℚ) (p : ShoppingProduct) : Bool :=
  has_discount p &&
    (match calculate_discount_percentage p with
     | some d => decide (d ≠ 0) && decide (m ≤ d)
     | none => false)

/-- The discount filter loop is a `List.filter` by `keepPred`. -/
theorem discountFilterLoop_eq_filter (l : List ShoppingProduct) (m : ℚ) :
    discountFilterLoop l m = l.filter (keepPred m) := by
  induction l with
  | nil => rfl
  | cons q qs ih =>
    by_cases hq : has_discount q
    · cases hc : calculate_discount_percentage q with
      | none => simp [discountFilterLoop, List.filter_cons, keepPred, hq, hc, ih]
      | some d =>
        by_cases hd : d ≠ 0 ∧ m ≤ d
        · simp [discountFilterLoop, List.filter_cons, keepPred, hq, hc, hd, ih,
            hd.1, hd.2]
        · rw [Decidable.not_and_iff_or_not] at hd
          rcases hd with h | h <;>
            simp_all [discountFilterLoop, List.filter_cons, keepPred, hq, hc, ih]
    · simp [discountFilterLoop, List.filter_cons, keepPred, hq, ih]

/-- Membership in the discount filter's output. -/
theorem mem_discountFilterLoop (l : List ShoppingProduct) (m : ℚ)
    (p : ShoppingProduct) :
    p ∈ discountFilterLoop l m ↔
      p ∈ l ∧ has_discount p = true ∧
        ∃ d, calculate_discount_percentage p = some d ∧ d ≠ 0 ∧ m ≤ d := by
  rw [discountFilterLoop_eq_filter, List.mem_filter]
  constructor
  · rintro ⟨hl, hk⟩
    refine ⟨hl, ?_⟩
    cases hc : calculate_discount_percentage p with
    | none => rw [keepPred, hc] at hk; simp at hk
    | some d =>
      rw [keepPred, hc] at hk
      simp only [Bool.and_eq_true, decide_eq_true_eq] at hk
      exact ⟨hk.1, d, rfl, hk.2.1, hk.2.2⟩
  · rintro ⟨hl, hd, d, hc, hdz, hmd⟩
    exact ⟨hl, by simp [keepPred, hd, hc, hdz, hmd]⟩

/-- A product carrying only the discount tag "0% OFF": `has_discount` holds,
its derived discount is 0, and it is dropped even at threshold 0. -/
def cexC2 : ShoppingProduct :=
  { title := "t", product_id := "i", source := "s", price := 100,
    discount_tag := some "0% OFF" }

/-- A product whose derived discount is exactly 10. -/
def boundC2 : ShoppingProduct :=
  { title := "t", product_id := "i", source := "s", price := 90,
    original_price := some 100 }

/-- A product with no discount evidence at all. -/
def plainC2 : ShoppingProduct :=
  { title := "t", product_id := "i", source := "s", price := 90 }

/-- C2: the claim as stated is false.  The product with tag "0% OFF" has
`hasDiscount` true and derived discount 0 ≥ 0, yet the filter at threshold 0
drops it: the code additionally requires the derived discount to be truthy
(nonzero). -/
theorem claim_C2_counterexample :
    has_discount cexC2 = true ∧
    calculate_discount_percentage cexC2 = some 0 ∧
    (0 : ℚ) ≤ 0 ∧
    discountFilterLoop [cexC2] 0 = [] := by
  refine ⟨rfl, ?_, le_refl 0, ?_⟩
  · simp [cexC2, calculate_discount_percentage, calcFromPrices, calcFromTag,
      extractTagPercent]
    decide
  · have h0 : calculate_discount_percentage cexC2 = some 0 := by
      simp [cexC2, calculate_discount_percentage, calcFromPrices, calcFromTag,
        extractTagPercent]
      decide
    simp [discountFilterLoop, h0]

/-- C2 (amended): the filter retains exactly the products where
`hasDiscount` is true and the derived discount value exists, is nonzero and
is at least `minDiscountPercent` (inclusive threshold); a threshold of 0
still requires `hasDiscount` and a nonzero derived value.  A product with
derived discount exactly 10 is kept at threshold 10 and dropped at
threshold 10.01; a product with no discount evidence is dropped at
threshold 0. -/
theorem claim_C2_amended (products : List ShoppingProduct) (m : ℚ) :
    (∀ p, p ∈ discountFilterLoop products m ↔
        p ∈ products ∧ has_discount p = true ∧
          ∃ d, calculate_discount_percentage p = some d ∧ d ≠ 0 ∧ m ≤ d) ∧
    List.Sublist (discountFilterLoop products m) products ∧
    discountFilterLoop [boundC2] 10 = [boundC2] ∧
    discountFilterLoop [boundC2] (10.01 : ℚ) = [] ∧
    discountFilterLoop [plainC2] 0 = [] := by
  have hb : calculate_discount_percentage boundC2 = some 10 := by
    simp [boundC2, calculate_discount_percentage, calcFromPrices]
    norm_num [round2, round_eq]
  have hbd : has_discount boundC2 = true := by
    simp [has_discount, boundC2]
    norm_num
  refine ⟨mem_discountFilterLoop products m, ?_, ?_, ?_, ?_⟩
  · rw [discountFilterLoop_eq_filter]; exact List.filter_sublist products
  · simp [discountFilterLoop, hb, hbd]
  · simp [discountFilterLoop, hb, hbd]
    norm_num
  · simp [discountFilterLoop, plainC2, has_discount]

/-- C2 (witness): the amended theorem applied to the singleton boundary list
at threshold 10. -/
theorem claim_C2_witness :
    boundC2 ∈ discountFilterLoop [boundC2] 10 := by
  have h := (claim_C2_amended [boundC2] 10).2.2.1
  rw [h]
  exact List.mem_singleton_self boundC2

/-- The deduplication pass only drops elements. -/
theorem dedupGo_sublist :
    ∀ (l : List SearchQuery) (seen : List (List Char)),
      List.Sublist (dedupGo seen l) l := by
  intro l
  induction l with
  | nil => intro seen; simp [dedupGo]
  | cons q rest ih =>
    intro seen
    by_cases h : lowerKw q.keyword ∈ seen
    · simp only [dedupGo, if_pos h]
      exact (ih seen).trans (List.sublist_cons_self q rest)
    · simp only [dedupGo, if_neg h]
      exact List.Sublist.cons₂ q (ih _)

/-- Elements kept by the deduplication pass avoid the seen set and have
pairwise distinct lowercased keywords. -/
theorem dedupGo_spec :
    ∀ (l : List SearchQuery) (seen : List (List Char)),
      (∀ q ∈ dedupGo seen l, lowerKw q.keyword ∉ seen) ∧
        (dedupGo seen l).Pairwise
          (fun a b => lowerKw a.keyword ≠ lowerKw b.keyword) := by
  intro l
  induction l with
  | nil => intro seen; simp [dedupGo]
  | cons q rest ih =>
    intro seen
    by_cases h : lowerKw q.keyword ∈ seen
    · simpa only [dedupGo, if_pos h] using ih seen
    · have ihq := ih (lowerKw q.keyword :: seen)
      simp only [dedupGo, if_neg h]
      constructor
      · intro x hx
        rcases List.mem_cons.mp hx with rfl | hx'
        · exact h
        · intro hmem
          exact ihq.1 x hx' (List.mem_cons_of_mem _ hmem)
      · refine List.Pairwise.cons ?_ ihq.2
        intro x hx heq
        exact ihq.1 x hx (heq ▸ List.mem_cons_self _ _)

/-- The concatenated example list from the spec, with its expected
aggregation output. -/
def exShoes5 : SearchQuery := { keyword := "shoes", priority := 5 }

/-- The higher-priority duplicate keyword in the spec's example. -/
def exShoes10 : SearchQuery := { keyword := "Shoes", priority := 10 }

/-- The low-priority third query in the spec's example. -/
def exBag1 : SearchQuery := { keyword := "bag", priority := 1 }

/-- C3: query aggregation stable-sorts the concatenated inputs descending by
priority and deduplicates by lowercased keyword keeping the first
occurrence: the output has pairwise distinct lowercased keywords, is ordered
priority-descending, is a subsequence of the priority-sorted concatenation,
and the spec's example [("shoes",5),("Shoes",10),("bag",1)] yields exactly
"Shoes" (10) then "bag" (1). -/
theorem claim_C3 (alerts : List SearchQuery) (trending : List String) :
    (gather_search_queries alerts trending).Pairwise
      (fun a b => lowerKw a.keyword ≠ lowerKw b.keyword) ∧
    List.Sorted priorityGE (gather_search_queries alerts trending) ∧
    List.Sublist (gather_search_queries alerts trending)
      (sortByPriorityDesc
        (alerts.map alertPrioritized ++ trending.map mkTrendingQuery)) ∧
    mergeQueries [exShoes5, exShoes10, exBag1] = [exShoes10, exBag1] := by
  refine ⟨?_, ?_, ?_, ?_⟩
  · exact (dedupGo_spec _ []).2
  · exact List.Pairwise.sublist (dedupGo_sublist _ [])
      (List.sorted_insertionSort priorityGE _)
  · exact dedupGo_sublist _ []
  · decide

/-- The product `_parse_product` builds once a positive price has been
resolved. -/
def builtProduct (item : RawItem) (q : ℚ) : ShoppingProduct :=
  { adoptTag item (rawToProduct item q) with
    discount_percentage :=
      calculate_discount_percentage (adoptTag item (rawToProduct item q)) }

/-- With a resolved positive price, `_parse_product` returns the built
product. -/
theorem parse_product_eq {item : RawItem} {q : ℚ}
    (hq : resolvePrice item = some q) (hpos : 0 < q) :
    parse_product item = some (builtProduct item q) := by
  simp [parse_product, hq, not_le.mpr hpos, builtProduct]

/-- C4: price resolution takes the pre-extracted numeric field first, else
the first numeric run of the comma-stripped formatted price string; when it
yields nothing or a non-positive value the item parses to no product, and
when it yields a positive value the parsed product carries exactly that
price. -/
theorem claim_C4 (item : RawItem) :
    (resolvePrice item = none → parse_product item = none) ∧
    (∀ q, resolvePrice item = some q → q ≤ 0 → parse_product item = none) ∧
    (∀ q, resolvePrice item = some q → 0 < q →
      ∃ p, parse_product item = some p ∧ p.price = q) := by
  refine ⟨?_, ?_, ?_⟩
  · intro h
    simp [parse_product, h]
  · intro q hq hle
    simp [parse_product, hq, hle]
  · intro q hq hpos
    exact ⟨builtProduct item q, parse_product_eq hq hpos, rfl⟩

/-- A raw item whose formatted price contains no digits at all. -/
def cexC4 : RawItem := { price_str := "abc" }

/-- C4 (witness): the theorem applied to an item with a non-extractable
price, which parses to no product. -/
theorem claim_C4_witness : parse_product cexC4 = none :=
  (claim_C4 cexC4).1 (by decide)

/-- C5: `has_discount` holds exactly when the discount percentage is present
and positive, or an original price above the current price is present, or a
discount tag is present; and a parsed item whose pre-extracted old price
exceeds the resolved price has `hasDiscount` true with derived discount
`round2((op - price) / op * 100)`. -/
theorem claim_C5 :
    (∀ p : ShoppingProduct, has_discount p = true ↔
      (∃ d, p.discount_percentage = some d ∧ 0 < d) ∨
      (∃ o, p.original_price = some o ∧ p.price < o) ∨
      p.discount_tag.isSome = true) ∧
    (∀ (item : RawItem) (op : ℚ) (p : ShoppingProduct),
      item.extracted_old_price = some op →
      parse_product item = some p →
      p.price < op →
      has_discount p = true ∧
      calculate_discount_percentage p =
        some (round2 ((op - p.price) / op * 100))) := by
  constructor
  · intro p
    obtain ⟨t, pid, src, pr, cur, opr, dp, th, pl, ra, rv, di, dt, co⟩ := p
    rw [has_discount]
    cases dp <;> cases opr <;> cases dt <;> simp
  · intro item op p hop hp hlt
    obtain ⟨q, hq, hqpos⟩ : ∃ q, resolvePrice item = some q ∧ 0 < q := by
      cases hq : resolvePrice item with
      | none => rw [parse_product, hq] at hp; simp at hp
      | some q =>
        by_cases hle : q ≤ 0
        · rw [parse_product, hq] at hp; simp [hle] at hp
        · exact ⟨q, rfl, not_le.mp hle⟩
    have hpp : p = builtProduct item q := by
      have hpe := parse_product_eq hq hqpos
      rw [hp] at hpe
      exact Option.some_injective _ hpe
    subst hpp
    have hprice : (builtProduct item q).price = q := rfl
    have horig : (builtProduct item q).original_price = item.extracted_old_price := rfl
    have hdp : (builtProduct item q).discount_percentage =
        calculate_discount_percentage (adoptTag item (rawToProduct item q)) := rfl
    have htagdp : (adoptTag item (rawToProduct item q)).discount_percentage = none := rfl
    have htagorig : (adoptTag item (rawToProduct item q)).original_price =
        item.extracted_old_price := rfl
    have htagprice : (adoptTag item (rawToProduct item q)).price = q := rfl
    rw [hprice] at hlt ⊢
    have hopne : op ≠ 0 := ne_of_gt (lt_trans hqpos hlt)
    have hcalct : calculate_discount_percentage (adoptTag item (rawToProduct item q)) =
        some (round2 ((op - q) / op * 100)) := by
      rw [calculate_discount_percentage, htagdp, calcFromPrices, htagorig, hop]
      simp [htagprice, hopne, hlt]
    constructor
    · rw [has_discount, horig, hop]
      simp [hlt, hprice]
    · by_cases hr : round2 ((op - q) / op * 100) = 0
      · have hfp : calcFromPrices (builtProduct item q) =
            some (round2 ((op - q) / op * 100)) := by
          rw [calcFromPrices, horig, hop]
          simp [hprice, hopne, hlt]
        rw [calculate_discount_percentage, hdp, hcalct]
        simp [hr, hfp]
      · rw [calculate_discount_percentage, hdp, hcalct]
        simp [hr]

/-- C5 (witness): a parsed item with pre-extracted price 50 and old price
100. -/
def witC5item : RawItem :=
  { extracted_price := some 50, extracted_old_price := some 100 }

/-- C5 (witness): the theorem applied to the parsed product of `witC5item`. -/
theorem claim_C5_witness :
    has_discount (builtProduct witC5item 50) = true ∧
    calculate_discount_percentage (builtProduct witC5item 50) =
      some (round2 ((100 - (builtProduct witC5item 50).price) / 100 * 100)) :=
  claim_C5.2 witC5item 100 (builtProduct witC5item 50) rfl
    (parse_product_eq rfl (by norm_num))
    (by show (50 : ℚ) < 100; norm_num)

/-- Modelled from the spec: the description fragments joined when each field
is merely present, regardless of its value (spec §3: "description is
synthesized by joining present informational fragments ... absent fragments
are omitted"). -/
def descPartsSpec (p : ShoppingProduct) : List String :=
  ["Found on " ++ p.source]
  ++ (match p.rating with
      | some r => ["Rating: " ++ showRat r ++ "/5"]
      | none => [])
  ++ (match p.reviews with
      | some n => ["(" ++ toString n ++ " reviews)"]
      | none => [])
  ++ (match p.delivery_info with
      | some s => ["Delivery: " ++ s]
      | none => [])
  ++ (match p.condition with
      | some s => ["Condition: " ++ s]
      | none => [])

/-- Modelled from the spec: the synthesized description per the spec's
presence-based wording. -/
def descriptionSpec (p : ShoppingProduct) : String :=
  String.intercalate " | " (descPartsSpec p)

/-- A product with a present-but-zero rating. -/
def cexC6 : ShoppingProduct :=
  { title := "T", product_id := "i", source := "Shop", price := 50,
    rating := some 0, product_link := some "x" }

/-- C6: the claim as stated is false.  For a product whose `rating` field is
present with value 0 the code omits the rating fragment (Python truthiness),
while joining the present fragments per the claim would include it. -/
theorem claim_C6_counterexample :
    (product_to_deal cexC6 none none none).map DealToCreate.description =
      some "Found on Shop" ∧
    descriptionSpec cexC6 = "Found on Shop | Rating: 0/5" ∧
    ("Found on Shop" : String) ≠ "Found on Shop | Rating: 0/5" := by
  refine ⟨by decide, by decide, by decide⟩

/-- Truthiness of `original_price` as tested by `_product_to_deal`
(agent.py:56-59): `None` or zero counts as missing. -/
def origFalsy (p : ShoppingProduct) : Prop :=
  p.original_price = none ∨ p.original_price = some 0

/-- C6 (amended): every constructed deal has status PENDING, 2-decimal
rounded monetary fields, and a description joining the fragments that are
present and truthy (a zero rating or review count and an empty
delivery/condition string are omitted), in the fixed order with separator
" | "; the original price is the rounded product original price when that is
set and nonzero, else `price / (1 - discountPercentage/100)` when a nonzero
discount percentage other than 100 is known, else `price` itself; a known
discount percentage of exactly 100 with no usable original price raises
(yields no deal) instead. -/
theorem claim_C6_amended (p : ShoppingProduct) (cid sid pb : Option String) :
    (∀ d, product_to_deal p cid sid pb = some d →
      d.status = DealStatus.pending ∧
      d.discounted_price = round2 p.price ∧
      d.discount_percentage = round2 ((calculate_discount_percentage p).getD 0) ∧
      d.description = String.intercalate " | " (descParts p)) ∧
    (∀ o, p.original_price = some o → o ≠ 0 →
      ∃ d, product_to_deal p cid sid pb = some d ∧ d.original_price = round2 o) ∧
    (origFalsy p → ∀ dp, p.discount_percentage = some dp → dp ≠ 0 → dp ≠ 100 →
      ∃ d, product_to_deal p cid sid pb = some d ∧
        d.original_price = round2 (p.price / (1 - dp / 100))) ∧
    (origFalsy p →
      (p.discount_percentage = none ∨ p.discount_percentage = some 0) →
      ∃ d, product_to_deal p cid sid pb = some d ∧
        d.original_price = round2 p.price) ∧
    (origFalsy p → p.discount_percentage = some 100 →
      product_to_deal p cid sid pb = none) := by
  refine ⟨?_, ?_, ?_, ?_, ?_⟩
  · intro d hd
    cases ho : resolveOriginal p with
    | none => rw [product_to_deal, ho] at hd; simp at hd
    | some o =>
      rw [product_to_deal, ho] at hd
      simp only [Option.some.injEq] at hd
      subst hd
      exact ⟨rfl, rfl, rfl, rfl⟩
  · intro o ho hoz
    have hro : resolveOriginal p = some o := by
      rw [resolveOriginal, ho]
      simp [hoz]
    exact ⟨_, by rw [product_to_deal, hro], rfl⟩
  · intro hof dp hdp hdz hd100
    have hden : (1 : ℚ) - dp / 100 ≠ 0 := by
      intro h
      apply hd100
      field_simp at h
      linarith
    have hest : resolveOriginalEstimate p = some (p.price / (1 - dp / 100)) := by
      rw [resolveOriginalEstimate, hdp]
      simp [hdz, hden]
    have hro : resolveOriginal p = some (p.price / (1 - dp / 100)) := by
      rcases hof with h | h <;> rw [resolveOriginal, h] <;> simp [hest]
    exact ⟨_, by rw [product_to_deal, hro], rfl⟩
  · intro hof hdp
    have hest : resolveOriginalEstimate p = some p.price := by
      rcases hdp with h | h
      · rw [resolveOriginalEstimate, h]
      · rw [resolveOriginalEstimate, h]; simp
    have hro : resolveOriginal p = some p.price := by
      rcases hof with h | h <;> rw [resolveOriginal, h] <;> simp [hest]
    exact ⟨_, by rw [product_to_deal, hro], rfl⟩
  · intro hof hdp
    have hden : (1 : ℚ) - 100 / 100 = 0 := by norm_num
    have hest : resolveOriginalEstimate p = none := by
      rw [resolveOriginalEstimate, hdp]
      simp [hden]
    have hro : resolveOriginal p = none := by
      rcases hof with h | h <;> rw [resolveOriginal, h] <;> simp [hest]
    rw [product_to_deal, hro]

/-- C6 (witness): the amended theorem applied to the product with original
price 100 and current price 90. -/
theorem claim_C6_witness :
    ∃ d, product_to_deal boundC2 none none none = some d ∧
      d.original_price = round2 100 :=
  (claim_C6_amended boundC2 none none none).2.1 100 rfl (by norm_num)

/-- Whether a search outcome succeeded. -/
def exceptOk (x : Except String (List ShoppingProduct)) : Bool :=
  match x with
  | Except.ok _ => true
  | Except.error _ => false

/-- The error entry one query contributes to the run, if any. -/
def queryErrEntry (sf : SearchQuery → Except String (List ShoppingProduct))
    (q : SearchQuery) : Option String :=
  match sf q with
  | Except.ok _ => none
  | Except.error e => some (queryErr q.keyword e)

/-- Characterization of the run loop fold: success is untouched, the
processed counter counts exactly the succeeding queries, and the error list
gains exactly one formatted entry per failing query, in order. -/
theorem run_fold_spec (sf : SearchQuery → Except String (List ShoppingProduct)) :
    ∀ (qs : List SearchQuery) (r : AgentResult),
      (qs.foldl (run_step sf) r).success = r.success ∧
      (qs.foldl (run_step sf) r).search_queries_processed =
        r.search_queries_processed + (qs.filter (fun q => exceptOk (sf q))).length ∧
      (qs.foldl (run_step sf) r).errors = r.errors ++ qs.filterMap (queryErrEntry sf) := by
  intro qs
  induction qs with
  | nil => intro r; simp
  | cons q qs ih =>
    intro r
    cases hsf : sf q with
    | ok ps =>
      have h := ih (run_step sf r q)
      simp only [List.foldl_cons] at *
      refine ⟨?_, ?_, ?_⟩
      · rw [h.1, run_step, hsf]
      · rw [h.2.1, run_step, hsf, List.filter_cons]
        simp [exceptOk, hsf, Nat.add_assoc, Nat.add_comm 1]
      · rw [h.2.2, run_step, hsf, List.filterMap_cons]
        simp [queryErrEntry, hsf]
    | error e =>
      have h := ih (run_step sf r q)
      simp only [List.foldl_cons] at *
      refine ⟨?_, ?_, ?_⟩
      · rw [h.1, run_step, hsf]
      · rw [h.2.1, run_step, hsf, List.filter_cons]
        simp [exceptOk, hsf]
      · rw [h.2.2, run_step, hsf, List.filterMap_cons]
        simp [queryErrEntry, hsf]

/-- C7: the run truncates the gathered queries to a prefix of length
`min maxQueries queries.length` (so 7 queries with maxQueries 5 process
exactly the first 5), leaves `success` true even when individual queries
fail, increments `queriesProcessed` exactly for each non-failing query of
the prefix, and appends exactly one error of the form
"Query '<keyword>': <message>" per failing query, in order. -/
theorem claim_C7 (sf : SearchQuery → Except String (List ShoppingProduct))
    (queries : List SearchQuery) (max_queries : ℕ) :
    (run_agent sf queries max_queries).success = true ∧
    (run_agent sf queries max_queries).search_queries_processed =
      ((queries.take max_queries).filter (fun q => exceptOk (sf q))).length ∧
    (run_agent sf queries max_queries).errors =
      (queries.take max_queries).filterMap (queryErrEntry sf) ∧
    (queries.take max_queries).length = min max_queries queries.length := by
  have h := run_fold_spec sf (queries.take max_queries) initResult
  rw [run_agent]
  refine ⟨?_, ?_, ?_, List.length_take max_queries queries⟩
  · rw [h.1]; rfl
  · rw [h.2.1]; simp [initResult]
  · rw [h.2.2]; rfl

/-- The parse-and-append loop appends exactly the parseable items, in
order. -/
theorem collectParsed_eq (items : List RawItem) :
    ∀ acc, collectParsed items acc = acc ++ items.filterMap parse_product := by
  induction items with
  | nil => intro acc; simp [collectParsed]
  | cons it its ih =>
    intro acc
    cases hp : parse_product it with
    | some p =>
      rw [collectParsed, List.foldl_cons]
      have : collectParsed its (match parse_product it with
          | some p => acc ++ [p]
          | none => acc) = collectParsed its (acc ++ [p]) := by rw [hp]
      rw [← collectParsed, this, ih, List.filterMap_cons]
      simp [hp]
    | none =>
      rw [collectParsed, List.foldl_cons]
      have : collectParsed its (match parse_product it with
          | some p => acc ++ [p]
          | none => acc) = collectParsed its acc := by rw [hp]
      rw [← collectParsed, this, ih, List.filterMap_cons]
      simp [hp]

/-- C10: the search result list is the successfully parsed items of the main
shopping results, in payload order, followed by the successfully parsed
items of the inline shopping results, in payload order. -/
theorem claim_C10 (data : SearchPayload) :
    search_results data =
      data.shopping_results.filterMap parse_product ++
        data.inline_shopping_results.filterMap parse_product := by
  rw [search_results, collectParsed_eq, collectParsed_eq]
  simp

/-- Every product kept by the discount filter has `has_discount`. -/
theorem discountFilterLoop_filter_self (l : List ShoppingProduct) (m : ℚ) :
    (discountFilterLoop l m).filter has_discount = discountFilterLoop l m := by
  apply List.filter_eq_self.mpr
  intro p hp
  exact ((mem_discountFilterLoop l m p).mp hp).2.1

/-- When every successful search returns only discounted products, the two
product counters of the fold stay equal. -/
theorem run_fold_counts (sf : SearchQuery → Except String (List ShoppingProduct))
    (hsf : ∀ q ps, sf q = Except.ok ps → (ps.filter has_discount).length = ps.length) :
    ∀ (qs : List SearchQuery) (r : AgentResult),
      r.products_found = r.products_with_discount →
      (qs.foldl (run_step sf) r).products_found =
        (qs.foldl (run_step sf) r).products_with_discount := by
  intro qs
  induction qs with
  | nil => intro r h; simpa using h
  | cons q qs ih =>
    intro r h
    rw [List.foldl_cons]
    apply ih
    cases hq : sf q with
    | ok ps =>
      rw [run_step, hq]
      simp only []
      rw [h, hsf q ps hq]
    | error e =>
      rw [run_step, hq]
      simpa using h

/-- C9: driving the run loop with the discount-filtered search, the
independently recomputed `productsWithDiscount` counter (counting filtered
items with `hasDiscount`) always equals `productsFound` at run end, since
the filter only returns products with `hasDiscount`. -/
theorem claim_C9 (raw : SearchQuery → Except String SearchPayload)
    (min_discount : ℚ) (queries : List SearchQuery) (max_queries : ℕ) :
    (run_agent
        (fun q => (raw q).map (fun d => search_with_discount_filter d min_discount))
        queries max_queries).products_found =
      (run_agent
        (fun q => (raw q).map (fun d => search_with_discount_filter d min_discount))
        queries max_queries).products_with_discount := by
  rw [run_agent]
  apply run_fold_counts _ _ _ _ rfl
  intro q ps hps
  cases hr : raw q with
  | error e => rw [hr] at hps; simp [Except.map] at hps
  | ok d =>
    rw [hr] at hps
    simp only [Except.map, Except.ok.injEq] at hps
    subst hps
    rw [search_with_discount_filter, discountFilterLoop_filter_self]

/-- A store environment in which no deal exists yet and every call
succeeds. -/
def envOkC8 : StoreEnv :=
  { deal_exists := fun _ => Except.ok false
    store_for := fun _ => Except.ok (some "sid")
    create_res := fun _ => Except.ok (some "deal-id") }

/-- First product of the spec's 3-product batch, with a product link. -/
def prodC8a : ShoppingProduct :=
  { title := "A", product_id := "a", source := "S", price := 10,
    product_link := some "u1" }

/-- Second product of the spec's 3-product batch, lacking a product link. -/
def prodC8b : ShoppingProduct :=
  { title := "B", product_id := "b", source := "S", price := 20 }

/-- Third product of the spec's 3-product batch, with a product link. -/
def prodC8c : ShoppingProduct :=
  { title := "C", product_id := "c", source := "S", price := 30,
    product_link := some "u3" }

/-- C8: a product without a usable link is skipped silently (no creation
attempt, no error), an already-existing deal is skipped with no error, any
store-collaborator error during one product is appended to the error list
while the fold continues, and the 3-product batch whose second product lacks
a link makes exactly 2 deal-creation attempts with no error entry. -/
theorem claim_C8 (env : StoreEnv) (cat : Option String) (s : ProcState)
    (p : ShoppingProduct) :
    (linkTruthy p = false → process_one env cat s p = s) ∧
    (linkTruthy p = true → env.deal_exists p.product_id = Except.ok true →
      process_one env cat s p = s) ∧
    (linkTruthy p = true → ∀ e, env.deal_exists p.product_id = Except.error e →
      process_one env cat s p = { s with errors := s.errors ++ [e] }) ∧
    (linkTruthy p = true → env.deal_exists p.product_id = Except.ok false →
      ∀ e, env.store_for p.source = Except.error e →
      process_one env cat s p = { s with errors := s.errors ++ [e] }) ∧
    ((process_products envOkC8 none [prodC8a, prodC8b, prodC8c]).deal_calls.length = 2 ∧
      (process_products envOkC8 none [prodC8a, prodC8b, prodC8c]).errors = [] ∧
      (process_products envOkC8 none [prodC8a, prodC8b, prodC8c]).deals_created = 2) := by
  refine ⟨?_, ?_, ?_, ?_, by decide, by decide, by decide⟩
  · intro hl
    rw [process_one, hl]
    simp
  · intro hl hde
    rw [process_one, hl, hde]
    simp
  · intro hl e hde
    rw [process_one, hl, hde]
    simp
  · intro hl hde e hsf
    rw [process_one, hl, hde, hsf]
    simp

/-- C8 (witness): the theorem's skip clause applied to the linkless product:
it leaves the state untouched. -/
theorem claim_C8_witness :
    process_one envOkC8 none {} prodC8b = {} :=
  (claim_C8 envOkC8 none {} prodC8b).1 rfl

end HfScraper
